import Mathlib

/-!
Verification of the rhythm-game timing core: a shallow embedding of the
Note state machine, JudgmentSystem, ScoreSystem, Clock and GameLoop,
with theorems checking the specification's claims against the code.
Times are modelled as exact rationals (the source uses JS numbers for
millisecond timestamps); `performance.now()` is passed explicitly as a
`now` argument to the stateful clock and loop operations.
-/

namespace RhythmGame

/-- Judgment grades, from src/types/Chart.ts. -/
inductive Judgment
  | PERFECT
  | GREAT
  | GOOD
  | BAD
  | MISS
deriving DecidableEq

/-- Result of judging a note, from src/types/Chart.ts (JudgmentResult). -/
structure JudgmentResult where
  judgment : Judgment
  timeDiff : ℚ
  score : ℤ
deriving DecidableEq

/-- Note kinds, from src/types/Chart.ts (NoteType). -/
inductive NoteType
  | tap
  | hold
deriving DecidableEq

/-- Chart entry for one note, from src/types/Chart.ts (NoteData). -/
structure NoteData where
  time : ℚ
  lane : ℕ
  type : NoteType
  duration : Option ℚ
deriving DecidableEq

/-- Layout constants used by the core, from src/config/layout.ts. -/
def JUDGMENT_LINE_Y : ℚ := 520

/-- NOTE_FALL_SPEED from src/config/layout.ts (0.5 pixels per ms). -/
def NOTE_FALL_SPEED : ℚ := 1/2

/-- NOTE_SPAWN_OFFSET from src/config/layout.ts (2000 ms look-ahead). -/
def NOTE_SPAWN_OFFSET : ℚ := 2000

/-- FIXED_TIMESTEP from src/config/layout.ts (1000/60 ms). -/
def FIXED_TIMESTEP : ℚ := 1000/60

/-- Runtime note state, from src/objects/Note.ts (sprite fields omitted:
they are rendering collaborators outside the core). -/
structure Note where
  time : ℚ
  lane : ℕ
  type : NoteType
  duration : ℚ
  endTime : ℚ
  y : ℚ
  endY : ℚ
  isActive : Bool
  isHit : Bool
  isMissed : Bool
  isHolding : Bool
  holdCompleted : Bool
deriving DecidableEq

/-- Note constructor, from src/objects/Note.ts (constructor). -/
def Note.ofData (d : NoteData) : Note where
  time := d.time
  lane := d.lane
  type := d.type
  duration := d.duration.getD 0
  endTime := d.time + d.duration.getD 0
  y := -50
  endY := -50
  isActive := false
  isHit := false
  isMissed := false
  isHolding := false
  holdCompleted := false

/-- Note.updatePosition(currentTime), from src/objects/Note.ts. -/
def Note.updatePosition (n : Note) (currentTime : ℚ) : Note :=
  let timeDiff := n.time - currentTime
  let n1 := { n with y := JUDGMENT_LINE_Y - timeDiff * NOTE_FALL_SPEED }
  let n2 :=
    if n1.type = .hold then
      { n1 with endY := JUDGMENT_LINE_Y - (n1.endTime - currentTime) * NOTE_FALL_SPEED }
    else n1
  let n3 :=
    if timeDiff ≤ NOTE_SPAWN_OFFSET ∧ n2.isHit = false ∧ n2.isMissed = false then
      { n2 with isActive := true }
    else n2
  let n4 :=
    if n3.type = .tap then
      if timeDiff < -200 ∧ n3.isHit = false then
        { n3 with isMissed := true, isActive := false }
      else n3
    else n3
  if n4.type = .hold then
    let n5 :=
      if timeDiff < -200 ∧ n4.isHit = false ∧ n4.isHolding = false then
        { n4 with isMissed := true, isActive := false }
      else n4
    if n5.isHolding = true ∧ currentTime ≥ n5.endTime then
      { n5 with holdCompleted := true, isActive := false }
    else n5
  else n4

/-- Note.hit(), from src/objects/Note.ts. -/
def Note.hit (n : Note) : Note :=
  let n1 := { n with isHit := true }
  if n1.type = .tap then { n1 with isActive := false }
  else if n1.type = .hold then { n1 with isHolding := true }
  else n1

/-- Note.release(currentTime), from src/objects/Note.ts; returns the JS
boolean result together with the updated note state. -/
def Note.release (n : Note) (currentTime : ℚ) : Bool × Note :=
  if n.type ≠ .hold ∨ n.isHolding = false then (false, n)
  else
    let n1 := { n with isHolding := false }
    if n1.endTime - currentTime > 200 then
      (false, { n1 with isActive := false })
    else
      (true, { n1 with holdCompleted := true, isActive := false })

/-- Note.miss(), from src/objects/Note.ts. -/
def Note.miss (n : Note) : Note :=
  { n with isMissed := true, isActive := false, isHolding := false }

/-- Note.isProcessed getter, from src/objects/Note.ts. -/
def Note.isProcessed (n : Note) : Bool :=
  if n.type = .tap then n.isHit || n.isMissed
  else n.holdCompleted || n.isMissed

/-- JUDGMENT_WINDOWS table, from src/systems/JudgmentSystem.ts:
(judgment, window in ms, score). -/
def JUDGMENT_WINDOWS : List (Judgment × ℚ × ℤ) :=
  [(.PERFECT, 25, 1000), (.GREAT, 50, 800), (.GOOD, 100, 500), (.BAD, 150, 200)]

/-- MISS_WINDOW constant, from src/systems/JudgmentSystem.ts. -/
def MISS_WINDOW : ℚ := 200

/-- The for-loop of JudgmentSystem.judge: walk the window table and
return at the first window containing the (absolute) timing difference. -/
def JudgmentSystem.judgeLoop (windows : List (Judgment × ℚ × ℤ)) (note : Note)
    (currentTime : ℚ) : Option JudgmentResult :=
  match windows with
  | [] => none
  | (j, w, s) :: rest =>
    if |currentTime - note.time| ≤ w then
      some ⟨j, currentTime - note.time, s⟩
    else JudgmentSystem.judgeLoop rest note currentTime

/-- JudgmentSystem.judge(note, currentTime), from src/systems/JudgmentSystem.ts. -/
def JudgmentSystem.judge (note : Note) (currentTime : ℚ) : Option JudgmentResult :=
  match JudgmentSystem.judgeLoop JUDGMENT_WINDOWS note currentTime with
  | some r => some r
  | none =>
    if |currentTime - note.time| ≤ MISS_WINDOW then
      some ⟨.BAD, currentTime - note.time, 200⟩
    else none

/-- JudgmentSystem.findHittableNote(notes, lane, currentTime), from
src/systems/JudgmentSystem.ts: the running (closestDiff, closestNote)
pair starts at (Infinity, null), modelled as `none`. -/
def JudgmentSystem.findHittableNote (notes : List Note) (lane : ℕ)
    (currentTime : ℚ) : Option Note :=
  (notes.foldl
    (fun acc note =>
      if note.lane ≠ lane ∨ note.isProcessed = true then acc
      else
        match acc with
        | none =>
          if |currentTime - note.time| ≤ MISS_WINDOW then
            some (|currentTime - note.time|, note)
          else none
        | some (d, m) =>
          if |currentTime - note.time| ≤ MISS_WINDOW ∧ |currentTime - note.time| < d then
            some (|currentTime - note.time|, note)
          else some (d, m))
    none).map Prod.snd

/-- The per-note body of JudgmentSystem.checkMissedNotes: returns the
(possibly missed) note and whether it was collected. -/
def JudgmentSystem.missCheck (n : Note) (currentTime : ℚ) : Note × Bool :=
  if n.isProcessed = true then (n, false)
  else if n.type = .hold ∧ n.isHit = true then (n, false)
  else if currentTime - n.time > MISS_WINDOW then (n.miss, true)
  else (n, false)

/-- JudgmentSystem.checkMissedNotes(notes, currentTime), from
src/systems/JudgmentSystem.ts: returns (missedNotes, updated notes array). -/
def JudgmentSystem.checkMissedNotes (notes : List Note) (currentTime : ℚ) :
    List Note × List Note :=
  match notes with
  | [] => ([], [])
  | n :: rest =>
    let r := JudgmentSystem.missCheck n currentTime
    let tailResult := JudgmentSystem.checkMissedNotes rest currentTime
    (if r.2 then r.1 :: tailResult.1 else tailResult.1, r.1 :: tailResult.2)

/-- JudgmentSystem.isHit(judgment), from src/systems/JudgmentSystem.ts. -/
def JudgmentSystem.isHit (j : Judgment) : Bool :=
  j = .PERFECT ∨ j = .GREAT ∨ j = .GOOD

/-- Per-grade hit counters, from src/systems/ScoreSystem.ts (ScoreStats). -/
structure ScoreStats where
  perfect : ℕ
  great : ℕ
  good : ℕ
  bad : ℕ
  missCount : ℕ
deriving DecidableEq

/-- ScoreSystem state, from src/systems/ScoreSystem.ts. -/
structure ScoreSystem where
  score : ℤ
  combo : ℕ
  maxCombo : ℕ
  stats : ScoreStats
deriving DecidableEq

/-- Initial ScoreSystem state (the field initializers in the source). -/
def ScoreSystem.init : ScoreSystem :=
  ⟨0, 0, 0, ⟨0, 0, 0, 0, 0⟩⟩

/-- ScoreSystem.updateStats(judgment), from src/systems/ScoreSystem.ts. -/
def ScoreSystem.updateStats (s : ScoreStats) (j : Judgment) : ScoreStats :=
  match j with
  | .PERFECT => { s with perfect := s.perfect + 1 }
  | .GREAT => { s with great := s.great + 1 }
  | .GOOD => { s with good := s.good + 1 }
  | .BAD => { s with bad := s.bad + 1 }
  | .MISS => { s with missCount := s.missCount + 1 }

/-- ScoreSystem.getComboMultiplier(), from src/systems/ScoreSystem.ts,
as a function of the combo counter it reads. -/
def ScoreSystem.getComboMultiplier (combo : ℕ) : ℚ :=
  if combo ≥ 100 then 2.0
  else if combo ≥ 50 then 1.5
  else if combo ≥ 25 then 1.25
  else if combo ≥ 10 then 1.1
  else 1.0

/-- ScoreSystem.addJudgment(result), from src/systems/ScoreSystem.ts. -/
def ScoreSystem.addJudgment (s : ScoreSystem) (result : JudgmentResult) : ScoreSystem :=
  let s1 := { s with stats := ScoreSystem.updateStats s.stats result.judgment }
  if JudgmentSystem.isHit result.judgment then
    let combo := s1.combo + 1
    let maxCombo := if combo > s1.maxCombo then combo else s1.maxCombo
    let comboMultiplier := ScoreSystem.getComboMultiplier combo
    { s1 with
      combo := combo
      maxCombo := maxCombo
      score := s1.score + ⌊(result.score : ℚ) * comboMultiplier⌋ }
  else
    { s1 with combo := 0, score := s1.score + result.score }

/-- ScoreSystem.miss(), from src/systems/ScoreSystem.ts. -/
def ScoreSystem.missNote (s : ScoreSystem) : ScoreSystem :=
  { s with stats := { s.stats with missCount := s.stats.missCount + 1 }, combo := 0 }

/-- Clock state, from src/core/Clock.ts (the AudioContext handle is an
external audio collaborator and carries no timing state). -/
structure Clock where
  startTime : ℚ
  pauseTime : ℚ
  isRunning : Bool
  offset : ℚ
deriving DecidableEq

/-- Clock field initializers, from src/core/Clock.ts. -/
def Clock.init : Clock :=
  ⟨0, 0, false, 0⟩

/-- Clock.start(offset), from src/core/Clock.ts; `now` is the value of
performance.now() at the call. -/
def Clock.start (c : Clock) (offset : ℚ) (now : ℚ) : Clock :=
  if c.isRunning then c
  else
    let c1 := { c with offset := offset }
    let c2 :=
      if c1.pauseTime > 0 then
        { c1 with startTime := now - (c1.pauseTime - c1.startTime) }
      else
        { c1 with startTime := now }
    { c2 with isRunning := true, pauseTime := 0 }

/-- Clock.pause(), from src/core/Clock.ts. -/
def Clock.pause (c : Clock) (now : ℚ) : Clock :=
  if c.isRunning = false then c
  else { c with pauseTime := now, isRunning := false }

/-- Clock.reset(), from src/core/Clock.ts. -/
def Clock.reset (_c : Clock) : Clock :=
  ⟨0, 0, false, 0⟩

/-- Clock.currentTime getter, from src/core/Clock.ts. -/
def Clock.currentTime (c : Clock) (now : ℚ) : ℚ :=
  if c.isRunning = false then
    if c.pauseTime > 0 then (c.pauseTime - c.startTime) + c.offset
    else c.offset
  else (now - c.startTime) + c.offset

/-- GameLoop state, from src/core/GameLoop.ts; animationFrameId is the
host scheduling handle (0 = none, requestAnimationFrame returns a
nonzero handle). -/
structure GameLoop where
  lastTime : ℚ
  accumulator : ℚ
  animationFrameId : ℕ
  isRunning : Bool
deriving DecidableEq

/-- GameLoop field initializers, from src/core/GameLoop.ts. -/
def GameLoop.init : GameLoop :=
  ⟨0, 0, 0, false⟩

/-- The loop's fixed timestep (this.timestep = LAYOUT.FIXED_TIMESTEP). -/
def GameLoop.timestep : ℚ := FIXED_TIMESTEP

/-- maxAccumulator = timestep * 5, from src/core/GameLoop.ts. -/
def GameLoop.maxAccumulator : ℚ := GameLoop.timestep * 5

/-- GameLoop.start(), from src/core/GameLoop.ts: sets the fields and then
invokes loop(); the loop body itself is modelled by GameLoop.loopFrame. -/
def GameLoop.start (g : GameLoop) (now : ℚ) : GameLoop :=
  if g.isRunning then g
  else { g with isRunning := true, lastTime := now, accumulator := 0 }

/-- GameLoop.stop(), from src/core/GameLoop.ts: clears isRunning, and
cancels and zeroes the scheduled frame handle if one is set. -/
def GameLoop.stop (g : GameLoop) : GameLoop :=
  let g1 := { g with isRunning := false }
  if g1.animationFrameId ≠ 0 then { g1 with animationFrameId := 0 }
  else g1

/-- The `while (accumulator >= timestep)` drain loop of GameLoop.loop:
each iteration passes exactly one timestep to onUpdate and consumes it
from the accumulator. The loop terminates because each iteration strictly
lowers ⌊acc/T⌋ (for T > 0), so it runs exactly toNat ⌊acc/T⌋ iterations;
the recursion is bounded by that count, passed as the first argument. -/
def GameLoop.drainAux : ℕ → ℚ → ℚ → List ℚ × ℚ
  | 0, _, acc => ([], acc)
  | fuel + 1, T, acc =>
    if T ≤ acc then
      let r := GameLoop.drainAux fuel T (acc - T)
      (T :: r.1, r.2)
    else ([], acc)

/-- Result of one invocation of GameLoop.loop: the dt value passed to each
onUpdate call in order, the interpolation passed to onRender (none when
the body returned early because the loop is stopped), and the new state. -/
structure FrameResult where
  updates : List ℚ
  render : Option ℚ
  state : GameLoop
deriving DecidableEq

/-- GameLoop.loop body, from src/core/GameLoop.ts; `now` is
performance.now() and `newFrameId` the handle returned by
requestAnimationFrame for the next scheduled frame. -/
def GameLoop.loopFrame (g : GameLoop) (now : ℚ) (newFrameId : ℕ) : FrameResult :=
  if g.isRunning = false then ⟨[], none, g⟩
  else
    let frameTime := now - g.lastTime
    let g1 := { g with lastTime := now }
    let frameTime1 :=
      if frameTime > GameLoop.maxAccumulator then GameLoop.maxAccumulator
      else frameTime
    let acc := g1.accumulator + frameTime1
    let r := GameLoop.drainAux (Int.toNat ⌊acc / GameLoop.timestep⌋) GameLoop.timestep acc
    let interp := r.2 / GameLoop.timestep
    ⟨r.1, some interp, { g1 with accumulator := r.2, animationFrameId := newFrameId }⟩

/-- Game.update, hold-completion check (src/Game.ts lines 177-185): a
tracked holding note that reports holdCompleted is awarded the hardcoded
judgment PERFECT with score 1000; returns the new score state and whether
the award fired. -/
def Game.updateHoldCheck (s : ScoreSystem) (n : Note) : ScoreSystem × Bool :=
  if n.holdCompleted = true then
    (ScoreSystem.addJudgment s ⟨.PERFECT, 0, 1000⟩, true)
  else (s, false)

/-- Game.onKeyUp, hold-release branch (src/Game.ts lines 272-289): release
the tracked note; on success award the hardcoded judgment PERFECT with
score 500, otherwise count a miss. -/
def Game.onKeyUpHold (s : ScoreSystem) (n : Note) (currentTime : ℚ) :
    ScoreSystem × Note :=
  let r := Note.release n currentTime
  if r.1 then (ScoreSystem.addJudgment s ⟨.PERFECT, 0, 500⟩, r.2)
  else (ScoreSystem.missNote s, r.2)

/-- One core event acting on a single note: a fixed-timestep tick's
updatePosition call, or the passive miss sweep of checkMissedNotes
(its per-note body missCheck). -/
inductive NoteEvent
  | update (t : ℚ)
  | sweep (t : ℚ)

/-- Apply one NoteEvent to a note. -/
def Note.applyEvent (n : Note) : NoteEvent → Note
  | .update t => n.updatePosition t
  | .sweep t => (JudgmentSystem.missCheck n t).1

/-- Apply a sequence of NoteEvents in order. -/
def Note.applyEvents (n : Note) (evs : List NoteEvent) : Note :=
  evs.foldl Note.applyEvent n

/-- The condition under which checkMissedNotes actually sweeps a note:
unprocessed, not a hold note that has already been hit (grabbed), and
strictly more than 200 ms late. -/
def sweepEligible (n : Note) (t : ℚ) : Prop :=
  n.isProcessed = false ∧ ¬(n.type = .hold ∧ n.isHit = true) ∧ t - n.time > 200

instance (n : Note) (t : ℚ) : Decidable (sweepEligible n t) :=
  inferInstanceAs (Decidable (_ ∧ _ ∧ _))

/-- State of a hold note that was grabbed and then lost without being
completed or missed: hit, no longer holding, not completed, not missed. -/
def grabbedLost (n : Note) : Prop :=
  n.type = .hold ∧ n.isHit = true ∧ n.isHolding = false ∧
    n.holdCompleted = false ∧ n.isMissed = false

/-- A fresh hold note grabbed with hit() and then released at t0:
the release result together with the resulting note state. -/
def grabbedThenReleased (time : ℚ) (lane : ℕ) (dur t0 : ℚ) : Bool × Note :=
  ((Note.ofData ⟨time, lane, .hold, some dur⟩).hit).release t0

/-- The judge table walk plus fallback, written as one chain of ifs. -/
lemma judge_eq (note : Note) (t : ℚ) :
    JudgmentSystem.judge note t =
      (if |t - note.time| ≤ 25 then some ⟨.PERFECT, t - note.time, 1000⟩
       else if |t - note.time| ≤ 50 then some ⟨.GREAT, t - note.time, 800⟩
       else if |t - note.time| ≤ 100 then some ⟨.GOOD, t - note.time, 500⟩
       else if |t - note.time| ≤ 150 then some ⟨.BAD, t - note.time, 200⟩
       else if |t - note.time| ≤ 200 then some ⟨.BAD, t - note.time, 200⟩
       else none) := by
  have hl : JudgmentSystem.judgeLoop JUDGMENT_WINDOWS note t =
      (if |t - note.time| ≤ 25 then some ⟨.PERFECT, t - note.time, 1000⟩
       else if |t - note.time| ≤ 50 then some ⟨.GREAT, t - note.time, 800⟩
       else if |t - note.time| ≤ 100 then some ⟨.GOOD, t - note.time, 500⟩
       else if |t - note.time| ≤ 150 then some ⟨.BAD, t - note.time, 200⟩
       else none) := by
    simp only [JudgmentSystem.judgeLoop, JUDGMENT_WINDOWS]
  unfold JudgmentSystem.judge MISS_WINDOW
  rw [hl]
  by_cases h1 : |t - note.time| ≤ 25
  · simp [h1]
  · by_cases h2 : |t - note.time| ≤ 50
    · simp [h1, h2]
    · by_cases h3 : |t - note.time| ≤ 100
      · simp [h1, h2, h3]
      · by_cases h4 : |t - note.time| ≤ 150
        · simp [h1, h2, h3, h4]
        · by_cases h5 : |t - note.time| ≤ 200
          · simp [h1, h2, h3, h4, h5]
          · simp [h1, h2, h3, h4, h5]

/-- Claim C1: judge classifies by the signed difference diff = currentTime
minus note.time: PERFECT/1000 when |diff| ≤ 25, GREAT/800 when
25 < |diff| ≤ 50, GOOD/500 when 50 < |diff| ≤ 100, BAD/200 when
100 < |diff| ≤ 150, the BAD/200 fallback when 150 < |diff| ≤ 200, and no
result when |diff| > 200; all boundaries inclusive, the result carrying
the signed diff and the points. -/
theorem judge_windows_correct (note : Note) (t : ℚ) :
    (|t - note.time| ≤ 25 →
      JudgmentSystem.judge note t = some ⟨.PERFECT, t - note.time, 1000⟩) ∧
    (25 < |t - note.time| → |t - note.time| ≤ 50 →
      JudgmentSystem.judge note t = some ⟨.GREAT, t - note.time, 800⟩) ∧
    (50 < |t - note.time| → |t - note.time| ≤ 100 →
      JudgmentSystem.judge note t = some ⟨.GOOD, t - note.time, 500⟩) ∧
    (100 < |t - note.time| → |t - note.time| ≤ 150 →
      JudgmentSystem.judge note t = some ⟨.BAD, t - note.time, 200⟩) ∧
    (150 < |t - note.time| → |t - note.time| ≤ 200 →
      JudgmentSystem.judge note t = some ⟨.BAD, t - note.time, 200⟩) ∧
    (200 < |t - note.time| → JudgmentSystem.judge note t = none) := by
  rw [judge_eq]
  refine ⟨?_, ?_, ?_, ?_, ?_, ?_⟩
  · intro h1
    rw [if_pos h1]
  · intro h1 h2
    rw [if_neg (not_le.mpr h1), if_pos h2]
  · intro h1 h2
    rw [if_neg (by linarith), if_neg (not_le.mpr h1), if_pos h2]
  · intro h1 h2
    rw [if_neg (by linarith), if_neg (by linarith), if_neg (not_le.mpr h1), if_pos h2]
  · intro h1 h2
    rw [if_neg (by linarith), if_neg (by linarith), if_neg (by linarith),
      if_neg (not_le.mpr h1), if_pos h2]
  · intro h1
    rw [if_neg (by linarith), if_neg (by linarith), if_neg (by linarith),
      if_neg (by linarith), if_neg (not_le.mpr h1)]

/-- Witness for C1: concrete judgments in each window of the table, for a
note at time 1000. -/
theorem judge_windows_correct_witness :
    JudgmentSystem.judge (Note.ofData ⟨1000, 0, .tap, none⟩) 1025
      = some ⟨.PERFECT, 25, 1000⟩ ∧
    JudgmentSystem.judge (Note.ofData ⟨1000, 0, .tap, none⟩) 1026
      = some ⟨.GREAT, 26, 800⟩ ∧
    JudgmentSystem.judge (Note.ofData ⟨1000, 0, .tap, none⟩) 1090
      = some ⟨.GOOD, 90, 500⟩ ∧
    JudgmentSystem.judge (Note.ofData ⟨1000, 0, .tap, none⟩) 1150
      = some ⟨.BAD, 150, 200⟩ ∧
    JudgmentSystem.judge (Note.ofData ⟨1000, 0, .tap, none⟩) 849
      = some ⟨.BAD, -151, 200⟩ ∧
    JudgmentSystem.judge (Note.ofData ⟨1000, 0, .tap, none⟩) 1201 = none := by
  have h := judge_windows_correct (Note.ofData ⟨1000, 0, .tap, none⟩)
  refine ⟨?_, ?_, ?_, ?_, ?_, ?_⟩
  · rw [(h 1025).1 (by norm_num [Note.ofData])]
    norm_num [Note.ofData]
  · rw [(h 1026).2.1 (by norm_num [Note.ofData]) (by norm_num [Note.ofData])]
    norm_num [Note.ofData]
  · rw [(h 1090).2.2.1 (by norm_num [Note.ofData]) (by norm_num [Note.ofData])]
    norm_num [Note.ofData]
  · rw [(h 1150).2.2.2.1 (by norm_num [Note.ofData]) (by norm_num [Note.ofData])]
    norm_num [Note.ofData]
  · rw [(h 849).2.2.2.2.1 (by norm_num [Note.ofData]) (by norm_num [Note.ofData])]
    norm_num [Note.ofData]
  · exact (h 1201).2.2.2.2.2 (by norm_num [Note.ofData])

/-- The per-note body of the sweep, characterized by sweepEligible. -/
lemma missCheck_eq (n : Note) (t : ℚ) :
    JudgmentSystem.missCheck n t
      = (if sweepEligible n t then n.miss else n, decide (sweepEligible n t)) := by
  unfold JudgmentSystem.missCheck sweepEligible MISS_WINDOW
  by_cases h1 : n.isProcessed = true
  · simp [h1]
  · by_cases h2 : n.type = .hold ∧ n.isHit = true
    · simp [h1, h2]
    · by_cases h3 : t - n.time > 200
      · simp [h1, h2, h3]
      · simp [h1, h2, h3]

/-- The sweep over a list, characterized by filter and map. -/
lemma checkMissedNotes_eq (notes : List Note) (t : ℚ) :
    (JudgmentSystem.checkMissedNotes notes t).1
        = (notes.filter (fun n => decide (sweepEligible n t))).map Note.miss ∧
    (JudgmentSystem.checkMissedNotes notes t).2
        = notes.map (fun n => if sweepEligible n t then n.miss else n) := by
  induction notes with
  | nil => simp [JudgmentSystem.checkMissedNotes]
  | cons n rest ih =>
    unfold JudgmentSystem.checkMissedNotes
    rw [missCheck_eq]
    by_cases h : sweepEligible n t
    · simp [h, List.filter_cons, ih.1, ih.2]
    · simp [h, List.filter_cons, ih.1, ih.2]

/-- Claim C2 (amended): checkMissedNotes calls miss() on, and returns,
exactly those notes that are unprocessed, are not hold notes that have
already been hit (grabbed), and satisfy currentTime minus note.time
strictly greater than 200; every other note is left unchanged. The
claim's tap-note scenario: a tap note at time 1000 never pressed is
swept (missed) at currentTime 1201 and left unprocessed at 1199. -/
theorem checkMissedNotes_spec (notes : List Note) (t : ℚ) :
    (JudgmentSystem.checkMissedNotes notes t).1
        = (notes.filter (fun n => decide (sweepEligible n t))).map Note.miss ∧
    (JudgmentSystem.checkMissedNotes notes t).2
        = notes.map (fun n => if sweepEligible n t then n.miss else n) ∧
    (JudgmentSystem.checkMissedNotes [Note.ofData ⟨1000, 0, .tap, none⟩] 1201).2
        = [Note.miss (Note.ofData ⟨1000, 0, .tap, none⟩)] ∧
    (Note.miss (Note.ofData ⟨1000, 0, .tap, none⟩)).isMissed = true ∧
    (JudgmentSystem.checkMissedNotes [Note.ofData ⟨1000, 0, .tap, none⟩] 1199).2
        = [Note.ofData ⟨1000, 0, .tap, none⟩] ∧
    (Note.ofData ⟨1000, 0, .tap, none⟩).isProcessed = false := by
  refine ⟨(checkMissedNotes_eq notes t).1, (checkMissedNotes_eq notes t).2, ?_, ?_, ?_, ?_⟩
  · simp [JudgmentSystem.checkMissedNotes, JudgmentSystem.missCheck, MISS_WINDOW,
      Note.ofData, Note.isProcessed, Note.miss]
    norm_num
  · simp [Note.ofData, Note.miss]
  · simp [JudgmentSystem.checkMissedNotes, JudgmentSystem.missCheck, MISS_WINDOW,
      Note.ofData, Note.isProcessed]
    norm_num
  · simp [Note.ofData, Note.isProcessed]

/-- Counterexample to C2 as stated: a hold note grabbed with hit() and
then released early is unprocessed, not currently being held, and more
than 200 ms late at currentTime 1300, yet checkMissedNotes does not
sweep it (the code skips every hold note whose isHit flag is set, held
or not) and leaves it unchanged. -/
theorem checkMissedNotes_cex :
    (grabbedThenReleased 1000 0 2000 1250).2.isProcessed = false ∧
    ¬((grabbedThenReleased 1000 0 2000 1250).2.type = .hold ∧
      (grabbedThenReleased 1000 0 2000 1250).2.isHolding = true) ∧
    (1300 : ℚ) - (grabbedThenReleased 1000 0 2000 1250).2.time > 200 ∧
    (JudgmentSystem.checkMissedNotes [(grabbedThenReleased 1000 0 2000 1250).2] 1300).1
        = [] ∧
    (JudgmentSystem.checkMissedNotes [(grabbedThenReleased 1000 0 2000 1250).2] 1300).2
        = [(grabbedThenReleased 1000 0 2000 1250).2] := by
  simp [grabbedThenReleased, Note.ofData, Note.hit, Note.release, Note.isProcessed,
    JudgmentSystem.checkMissedNotes, JudgmentSystem.missCheck, MISS_WINDOW]
  norm_num
  decide

/-- Counterexample to C3 as stated: start(100) at now 0, pause at now 50
(the paused currentTime reads 150), then resume with start(50) at now 60.
Immediately after the resume, currentTime is 100, not the paused value
plus the new session offset (150 + 50 = 200): the resumed clock keeps
only the frozen elapsed play time, and the old offset is replaced by the
new one, not added. -/
theorem clock_resume_cex :
    (Clock.pause (Clock.start Clock.init 100 0) 50).isRunning = false ∧
    (Clock.pause (Clock.start Clock.init 100 0) 50).pauseTime > 0 ∧
    Clock.currentTime (Clock.pause (Clock.start Clock.init 100 0) 50) 55 = 150 ∧
    Clock.currentTime
        (Clock.start (Clock.pause (Clock.start Clock.init 100 0) 50) 50 60) 60 = 100 ∧
    (100 : ℚ) ≠ 150 + 50 := by
  simp [Clock.init, Clock.start, Clock.pause, Clock.currentTime]
  norm_num

/-- Claim C3 (amended): resuming a paused clock with start(o) realigns
the epoch so that currentTime immediately after the resume equals the
elapsed play time frozen while paused — the paused currentTime minus the
previous session offset — plus the new session offset. In the claim's
scenario start(0), advance, pause(), record, start(0), both offsets are
0, so the currentTime read immediately after the second start equals the
recorded value exactly. -/
theorem clock_resume_spec (c : Clock) (o now now' : ℚ)
    (hrun : c.isRunning = false) (hp : 0 < c.pauseTime) :
    Clock.currentTime (Clock.start c o now') now'
        = (Clock.currentTime c now - c.offset) + o ∧
    (c.offset = 0 → o = 0 →
      Clock.currentTime (Clock.start c o now') now' = Clock.currentTime c now) := by
  unfold Clock.start Clock.currentTime
  simp [hrun, hp]
  intro h1 h2
  rw [h1, h2]

/-- Witness for C3: a clock started at 0 with offset 0, paused at 50,
resumed with offset 0 at 60; the resumed currentTime equals the recorded
paused value. -/
theorem clock_resume_spec_witness :
    Clock.currentTime
        (Clock.start (Clock.pause (Clock.start Clock.init 0 0) 50) 0 60) 60
      = (Clock.currentTime (Clock.pause (Clock.start Clock.init 0 0) 50) 55
          - (Clock.pause (Clock.start Clock.init 0 0) 50).offset) + 0 ∧
    Clock.currentTime
        (Clock.start (Clock.pause (Clock.start Clock.init 0 0) 50) 0 60) 60
      = Clock.currentTime (Clock.pause (Clock.start Clock.init 0 0) 50) 55 := by
  have h := clock_resume_spec (Clock.pause (Clock.start Clock.init 0 0) 50) 0 55 60
    (by norm_num [Clock.init, Clock.start, Clock.pause])
    (by norm_num [Clock.init, Clock.start, Clock.pause])
  exact ⟨h.1, h.2 (by norm_num [Clock.init, Clock.start, Clock.pause]) rfl⟩

/-- Every dt handed to onUpdate by the drain loop is the timestep. -/
lemma drainAux_mem (fuel : ℕ) (T : ℚ) :
    ∀ acc, ∀ dt ∈ (GameLoop.drainAux fuel T acc).1, dt = T := by
  induction fuel with
  | zero =>
    intro acc dt hdt
    simp [GameLoop.drainAux] at hdt
  | succ f ih =>
    intro acc dt hdt
    unfold GameLoop.drainAux at hdt
    by_cases h : T ≤ acc
    · rw [if_pos h] at hdt
      simp only [List.mem_cons] at hdt
      rcases hdt with h1 | h1
      · exact h1
      · exact ih _ dt h1
    · rw [if_neg h] at hdt
      simp at hdt

/-- The drain loop performs at most `fuel` iterations. -/
lemma drainAux_length (fuel : ℕ) (T : ℚ) :
    ∀ acc, (GameLoop.drainAux fuel T acc).1.length ≤ fuel := by
  induction fuel with
  | zero => intro acc; simp [GameLoop.drainAux]
  | succ f ih =>
    intro acc
    unfold GameLoop.drainAux
    by_cases h : T ≤ acc
    · rw [if_pos h]
      simpa using ih (acc - T)
    · rw [if_neg h]
      simp

/-- With fuel at least ⌊acc/T⌋, the drain loop runs to completion and
leaves a remainder in [0, T). -/
lemma drainAux_rem (T : ℚ) (hT : 0 < T) :
    ∀ fuel : ℕ, ∀ acc, 0 ≤ acc → Int.toNat ⌊acc / T⌋ ≤ fuel →
      0 ≤ (GameLoop.drainAux fuel T acc).2 ∧ (GameLoop.drainAux fuel T acc).2 < T := by
  intro fuel
  induction fuel with
  | zero =>
    intro acc h0 hf
    have h1 : ⌊acc / T⌋ ≤ 0 := by omega
    have h2 : acc / T < 1 := by
      have h3 := Int.lt_floor_add_one (acc / T)
      have h4 : ((⌊acc / T⌋ : ℤ) : ℚ) ≤ 0 := by exact_mod_cast h1
      linarith
    have h4 : acc < T := (div_lt_one hT).mp h2
    exact ⟨h0, h4⟩
  | succ f ih =>
    intro acc h0 hf
    by_cases h : T ≤ acc
    · have hfloor1 : (1 : ℤ) ≤ ⌊acc / T⌋ := by
        rw [Int.le_floor]
        push_cast
        rw [le_div_iff₀ hT]
        linarith
      have hkey : ⌊(acc - T) / T⌋ = ⌊acc / T⌋ - 1 := by
        rw [sub_div, div_self (ne_of_gt hT)]
        exact Int.floor_sub_one _
      have h2 : Int.toNat ⌊(acc - T) / T⌋ ≤ f := by
        rw [hkey]
        omega
      have h3 := ih (acc - T) (by linarith) h2
      unfold GameLoop.drainAux
      rw [if_pos h]
      simpa using h3
    · have h4 : acc < T := not_le.mp h
      unfold GameLoop.drainAux
      rw [if_neg h]
      exact ⟨h0, h4⟩

/-- Claim C4: in a single frame of a running loop, with any carried-in
accumulator below one timestep and any elapsed wall time since the
previous frame, onUpdate is invoked between 0 and 5 times, every call
receives exactly the fixed timestep, and onRender is invoked exactly
once with an interpolation fraction (accumulator / timestep) in [0,1). -/
theorem loopFrame_bounded (g : GameLoop) (now : ℚ) (newFrameId : ℕ)
    (hrun : g.isRunning = true) (hacc0 : 0 ≤ g.accumulator)
    (hacc : g.accumulator < GameLoop.timestep) (hnow : g.lastTime ≤ now) :
    (GameLoop.loopFrame g now newFrameId).updates.length ≤ 5 ∧
    (∀ dt ∈ (GameLoop.loopFrame g now newFrameId).updates, dt = GameLoop.timestep) ∧
    (∃ i, (GameLoop.loopFrame g now newFrameId).render = some i ∧ 0 ≤ i ∧ i < 1) := by
  have hT : (0:ℚ) < GameLoop.timestep := by
    norm_num [GameLoop.timestep, FIXED_TIMESTEP]
  have hmax : GameLoop.maxAccumulator = GameLoop.timestep * 5 := rfl
  unfold GameLoop.loopFrame
  rw [if_neg (by simp [hrun])]
  set ft := now - g.lastTime with hft
  set ft1 := (if ft > GameLoop.maxAccumulator then GameLoop.maxAccumulator else ft) with hft1
  set acc := g.accumulator + ft1 with hacc1
  have hft0 : 0 ≤ ft := by rw [hft]; linarith
  have hub : ft1 ≤ GameLoop.maxAccumulator := by
    rw [hft1]
    split_ifs with h
    · exact le_refl _
    · linarith [not_lt.mp h]
  have hlb : 0 ≤ ft1 := by
    rw [hft1]
    split_ifs with h
    · rw [hmax]; positivity
    · exact hft0
  have haccUB : acc < 6 * GameLoop.timestep := by
    rw [hacc1]
    have := hmax ▸ hub
    linarith
  have haccLB : 0 ≤ acc := by
    rw [hacc1]
    linarith
  have hfuel : Int.toNat ⌊acc / GameLoop.timestep⌋ ≤ 5 := by
    have hflt : ⌊acc / GameLoop.timestep⌋ < 6 := by
      rw [Int.floor_lt]
      push_cast
      rw [div_lt_iff₀ hT]
      linarith
    omega
  have hrem := drainAux_rem GameLoop.timestep hT
    (Int.toNat ⌊acc / GameLoop.timestep⌋) acc haccLB (le_refl _)
  refine ⟨?_, ?_, ?_⟩
  · show (GameLoop.drainAux (Int.toNat ⌊acc / GameLoop.timestep⌋)
        GameLoop.timestep acc).1.length ≤ 5
    exact le_trans (drainAux_length _ _ acc) hfuel
  · show ∀ dt ∈ (GameLoop.drainAux (Int.toNat ⌊acc / GameLoop.timestep⌋)
        GameLoop.timestep acc).1, dt = GameLoop.timestep
    exact drainAux_mem _ _ acc
  · show ∃ i, some ((GameLoop.drainAux (Int.toNat ⌊acc / GameLoop.timestep⌋)
        GameLoop.timestep acc).2 / GameLoop.timestep) = some i ∧ 0 ≤ i ∧ i < 1
    refine ⟨_, rfl, ?_, ?_⟩
    · exact div_nonneg hrem.1 (le_of_lt hT)
    · rw [div_lt_one hT]
      exact hrem.2

/-- Witness for C4: a running loop at lastTime 0 with empty accumulator,
observed after an elapsed wall time of ten timesteps, performs at most 5
updates, all of exactly one timestep, and renders a fraction in [0,1). -/
theorem loopFrame_bounded_witness :
    (GameLoop.loopFrame
        { lastTime := 0, accumulator := 0, animationFrameId := 1, isRunning := true }
        (10 * GameLoop.timestep) 2).updates.length ≤ 5 ∧
    (∀ dt ∈ (GameLoop.loopFrame
        { lastTime := 0, accumulator := 0, animationFrameId := 1, isRunning := true }
        (10 * GameLoop.timestep) 2).updates, dt = GameLoop.timestep) ∧
    (∃ i, (GameLoop.loopFrame
        { lastTime := 0, accumulator := 0, animationFrameId := 1, isRunning := true }
        (10 * GameLoop.timestep) 2).render = some i ∧ 0 ≤ i ∧ i < 1) :=
  loopFrame_bounded
    { lastTime := 0, accumulator := 0, animationFrameId := 1, isRunning := true }
    (10 * GameLoop.timestep) 2 rfl (le_refl 0)
    (by norm_num [GameLoop.timestep, FIXED_TIMESTEP])
    (by norm_num [GameLoop.timestep, FIXED_TIMESTEP])

/-- release on anything but a currently-holding hold note: failing no-op. -/
lemma release_noop (n : Note) (t : ℚ) (h : ¬(n.type = .hold ∧ n.isHolding = true)) :
    n.release t = (false, n) := by
  unfold Note.release
  rw [if_pos]
  rcases not_and_or.mp h with h1 | h1
  · exact Or.inl h1
  · exact Or.inr (by simpa using h1)

/-- release of a held hold note more than 200 ms before its end: failure,
holding and active cleared, everything else untouched. -/
lemma release_early (n : Note) (t : ℚ) (hty : n.type = .hold)
    (hh : n.isHolding = true) (ht : n.endTime - t > 200) :
    n.release t = (false, { n with isHolding := false, isActive := false }) := by
  unfold Note.release
  rw [if_neg (by simp [hty, hh]), if_pos (by simpa using ht)]

/-- release of a held hold note within the final 200 ms: success,
holdCompleted set, holding and active cleared. -/
lemma release_success (n : Note) (t : ℚ) (hty : n.type = .hold)
    (hh : n.isHolding = true) (ht : n.endTime - t ≤ 200) :
    n.release t
      = (true, { n with isHolding := false, isActive := false, holdCompleted := true }) := by
  unfold Note.release
  rw [if_neg (by simp [hty, hh]), if_neg (by simpa using not_lt.mpr ht)]

/-- Claim C5: release(currentTime) is a failing no-op unless the note is
a hold note currently holding; otherwise holding is cleared and the call
fails (active cleared, holdCompleted untouched) when more than 200 ms of
hold remain, or succeeds with holdCompleted set and active cleared when
at most 200 ms remain. On the hold note time 1000 / duration 2000 after
hit(): release(2850) succeeds with holdCompleted, release(2500) on a
fresh copy fails with the hold not completed. -/
theorem release_spec (n : Note) (t : ℚ) :
    (¬(n.type = .hold ∧ n.isHolding = true) → n.release t = (false, n)) ∧
    (n.type = .hold → n.isHolding = true → n.endTime - t > 200 →
      n.release t = (false, { n with isHolding := false, isActive := false })) ∧
    (n.type = .hold → n.isHolding = true → n.endTime - t ≤ 200 →
      n.release t
        = (true, { n with isHolding := false, isActive := false, holdCompleted := true })) ∧
    ((((Note.ofData ⟨1000, 0, .hold, some 2000⟩).hit).release 2850).1 = true ∧
      (((Note.ofData ⟨1000, 0, .hold, some 2000⟩).hit).release 2850).2.holdCompleted
        = true) ∧
    ((((Note.ofData ⟨1000, 0, .hold, some 2000⟩).hit).release 2500).1 = false ∧
      (((Note.ofData ⟨1000, 0, .hold, some 2000⟩).hit).release 2500).2.holdCompleted
        = false) := by
  refine ⟨?_, ?_, ?_, ?_, ?_⟩
  · exact release_noop n t
  · exact fun h1 h2 h3 => release_early n t h1 h2 h3
  · exact fun h1 h2 h3 => release_success n t h1 h2 h3
  · constructor
    · simp [Note.ofData, Note.hit, Note.release]
      norm_num
    · simp [Note.ofData, Note.hit, Note.release]
      norm_num
  · constructor
    · simp [Note.ofData, Note.hit, Note.release]
      norm_num
    · simp [Note.ofData, Note.hit, Note.release]
      norm_num

/-- Witness for C5: the three branches applied at concrete notes — a tap
note is untouched, an early release fails clearing only holding and
active, a timely release succeeds setting holdCompleted. -/
theorem release_spec_witness :
    (Note.ofData ⟨1000, 0, .tap, none⟩).release 1000
        = (false, Note.ofData ⟨1000, 0, .tap, none⟩) ∧
    ((Note.ofData ⟨1000, 0, .hold, some 2000⟩).hit).release 2500
        = (false,
            { (Note.ofData ⟨1000, 0, .hold, some 2000⟩).hit with
                isHolding := false, isActive := false }) ∧
    ((Note.ofData ⟨1000, 0, .hold, some 2000⟩).hit).release 2850
        = (true,
            { (Note.ofData ⟨1000, 0, .hold, some 2000⟩).hit with
                isHolding := false, isActive := false, holdCompleted := true }) :=
  ⟨(release_spec _ 1000).1 (by simp [Note.ofData]),
   (release_spec _ 2500).2.1 (by simp [Note.ofData, Note.hit])
     (by simp [Note.ofData, Note.hit])
     (by simp [Note.ofData, Note.hit]; norm_num),
   (release_spec _ 2850).2.2.1 (by simp [Note.ofData, Note.hit])
     (by simp [Note.ofData, Note.hit])
     (by simp [Note.ofData, Note.hit]; norm_num)⟩

/-- Claim C6: addJudgment records the grade unconditionally; on PERFECT,
GREAT or GOOD it increments combo, raises maxCombo when exceeded and adds
floor(points times the multiplier of the new combo) to the score; on any
other grade it resets combo to zero and adds the raw points. Ten straight
PERFECTs of 1000 points from a fresh state give score 10100, combo 10,
maxCombo 10. -/
theorem addJudgment_spec (s : ScoreSystem) (r : JudgmentResult) :
    ((s.addJudgment r).stats = ScoreSystem.updateStats s.stats r.judgment) ∧
    (JudgmentSystem.isHit r.judgment = true →
      (s.addJudgment r).combo = s.combo + 1 ∧
      (s.addJudgment r).maxCombo
          = (if s.combo + 1 > s.maxCombo then s.combo + 1 else s.maxCombo) ∧
      (s.addJudgment r).score
          = s.score + ⌊(r.score : ℚ) * ScoreSystem.getComboMultiplier (s.combo + 1)⌋) ∧
    (JudgmentSystem.isHit r.judgment = false →
      (s.addJudgment r).combo = 0 ∧
      (s.addJudgment r).maxCombo = s.maxCombo ∧
      (s.addJudgment r).score = s.score + r.score) ∧
    (((List.replicate 10 (⟨.PERFECT, 0, 1000⟩ : JudgmentResult)).foldl
        ScoreSystem.addJudgment ScoreSystem.init).score = 10100 ∧
      ((List.replicate 10 (⟨.PERFECT, 0, 1000⟩ : JudgmentResult)).foldl
        ScoreSystem.addJudgment ScoreSystem.init).combo = 10 ∧
      ((List.replicate 10 (⟨.PERFECT, 0, 1000⟩ : JudgmentResult)).foldl
        ScoreSystem.addJudgment ScoreSystem.init).maxCombo = 10) := by
  refine ⟨?_, ?_, ?_, ?_⟩
  · unfold ScoreSystem.addJudgment
    by_cases h : JudgmentSystem.isHit r.judgment
    · simp [h]
    · simp [h]
  · intro h
    unfold ScoreSystem.addJudgment
    simp [h]
  · intro h
    unfold ScoreSystem.addJudgment
    simp [h]
  · refine ⟨?_, ?_, ?_⟩
    · simp [List.replicate, ScoreSystem.addJudgment, ScoreSystem.init,
        ScoreSystem.updateStats, ScoreSystem.getComboMultiplier, JudgmentSystem.isHit]
      norm_num
    · simp [List.replicate, ScoreSystem.addJudgment, ScoreSystem.init,
        ScoreSystem.updateStats, ScoreSystem.getComboMultiplier, JudgmentSystem.isHit]
    · simp [List.replicate, ScoreSystem.addJudgment, ScoreSystem.init,
        ScoreSystem.updateStats, ScoreSystem.getComboMultiplier, JudgmentSystem.isHit]

/-- Witness for C6: one PERFECT from the fresh state takes the hit path
(combo 1, multiplier 1.0, plus 1000), and one MISS from the fresh state
takes the reset path (combo 0, raw points added). -/
theorem addJudgment_spec_witness :
    ((ScoreSystem.init.addJudgment ⟨.PERFECT, 0, 1000⟩).combo = ScoreSystem.init.combo + 1 ∧
      (ScoreSystem.init.addJudgment ⟨.PERFECT, 0, 1000⟩).maxCombo
          = (if ScoreSystem.init.combo + 1 > ScoreSystem.init.maxCombo then
              ScoreSystem.init.combo + 1 else ScoreSystem.init.maxCombo) ∧
      (ScoreSystem.init.addJudgment ⟨.PERFECT, 0, 1000⟩).score
          = ScoreSystem.init.score
            + ⌊((1000 : ℤ) : ℚ)
                * ScoreSystem.getComboMultiplier (ScoreSystem.init.combo + 1)⌋) ∧
    ((ScoreSystem.init.addJudgment ⟨.MISS, 0, 0⟩).combo = 0 ∧
      (ScoreSystem.init.addJudgment ⟨.MISS, 0, 0⟩).maxCombo = ScoreSystem.init.maxCombo ∧
      (ScoreSystem.init.addJudgment ⟨.MISS, 0, 0⟩).score = ScoreSystem.init.score + 0) :=
  ⟨(addJudgment_spec ScoreSystem.init ⟨.PERFECT, 0, 1000⟩).2.1 (by decide),
   (addJudgment_spec ScoreSystem.init ⟨.MISS, 0, 0⟩).2.2.1 (by decide)⟩

/-- Claim C7: the combo multiplier is a non-decreasing step function of
the combo count, with multiplier(9) = 1.0, multiplier(10) = 1.1,
multiplier(25) = 1.25, multiplier(50) = 1.5 and multiplier(100) = 2.0. -/
theorem comboMultiplier_monotone (c1 c2 : ℕ) (h : c1 ≤ c2) :
    ScoreSystem.getComboMultiplier c1 ≤ ScoreSystem.getComboMultiplier c2 ∧
    ScoreSystem.getComboMultiplier 9 = 1.0 ∧
    ScoreSystem.getComboMultiplier 10 = 1.1 ∧
    ScoreSystem.getComboMultiplier 25 = 1.25 ∧
    ScoreSystem.getComboMultiplier 50 = 1.5 ∧
    ScoreSystem.getComboMultiplier 100 = 2.0 := by
  refine ⟨?_, by norm_num [ScoreSystem.getComboMultiplier],
    by norm_num [ScoreSystem.getComboMultiplier],
    by norm_num [ScoreSystem.getComboMultiplier],
    by norm_num [ScoreSystem.getComboMultiplier],
    by norm_num [ScoreSystem.getComboMultiplier]⟩
  unfold ScoreSystem.getComboMultiplier
  split_ifs <;> first | omega | norm_num

/-- Witness for C7: the multiplier at combo 7 does not exceed the
multiplier at combo 30, together with the pinned table values. -/
theorem comboMultiplier_monotone_witness :
    ScoreSystem.getComboMultiplier 7 ≤ ScoreSystem.getComboMultiplier 30 ∧
    ScoreSystem.getComboMultiplier 9 = 1.0 ∧
    ScoreSystem.getComboMultiplier 10 = 1.1 ∧
    ScoreSystem.getComboMultiplier 25 = 1.25 ∧
    ScoreSystem.getComboMultiplier 50 = 1.5 ∧
    ScoreSystem.getComboMultiplier 100 = 2.0 :=
  comboMultiplier_monotone 7 30 (by decide)

/-- Counterexample to C8 as stated: from a fresh score state, a hold that
completes naturally is awarded 1000 points (Game.update) while a hold
whose release succeeds inside the final 200 ms is awarded 500 points
(Game.onKeyUp): the two success paths do not award the same reward. -/
theorem holdReward_cex :
    (((Note.ofData ⟨1000, 0, .hold, some 2000⟩).hit).updatePosition 3000).holdCompleted
        = true ∧
    (Game.updateHoldCheck ScoreSystem.init
        (((Note.ofData ⟨1000, 0, .hold, some 2000⟩).hit).updatePosition 3000)).1.score
        = 1000 ∧
    (((Note.ofData ⟨1000, 0, .hold, some 2000⟩).hit).release 2850).1 = true ∧
    (Game.onKeyUpHold ScoreSystem.init
        ((Note.ofData ⟨1000, 0, .hold, some 2000⟩).hit) 2850).1.score = 500 ∧
    (1000 : ℤ) ≠ 500 := by
  refine ⟨?_, ?_, ?_, ?_, by decide⟩
  · simp [Note.ofData, Note.hit, Note.updatePosition, NOTE_SPAWN_OFFSET]
    norm_num
  · simp [Note.ofData, Note.hit, Note.updatePosition, NOTE_SPAWN_OFFSET,
      Game.updateHoldCheck, ScoreSystem.addJudgment, ScoreSystem.init,
      ScoreSystem.updateStats, ScoreSystem.getComboMultiplier, JudgmentSystem.isHit]
    norm_num
  · simp [Note.ofData, Note.hit, Note.release]
    norm_num
  · simp [Note.ofData, Note.hit, Note.release, Game.onKeyUpHold,
      ScoreSystem.addJudgment, ScoreSystem.init, ScoreSystem.updateStats,
      ScoreSystem.getComboMultiplier, JudgmentSystem.isHit]
    norm_num

/-- Claim C8 (amended): each hold-success path awards a fixed
PERFECT-equivalent judgment whose value does not depend on how precisely
the hold was released — a successful release always awards the hardcoded
PERFECT/500 judgment, whatever the release time inside the final 200 ms,
and a natural completion always awards the hardcoded PERFECT/1000
judgment — but the two paths award different point values. -/
theorem holdReward_flat (s : ScoreSystem) (n : Note) (t1 t2 : ℚ)
    (hty : n.type = .hold) (hh : n.isHolding = true)
    (h1 : n.endTime - t1 ≤ 200) (h2 : n.endTime - t2 ≤ 200) :
    (Game.onKeyUpHold s n t1).1 = ScoreSystem.addJudgment s ⟨.PERFECT, 0, 500⟩ ∧
    (Game.onKeyUpHold s n t1).1 = (Game.onKeyUpHold s n t2).1 ∧
    (n.holdCompleted = true →
      (Game.updateHoldCheck s n).1 = ScoreSystem.addJudgment s ⟨.PERFECT, 0, 1000⟩) ∧
    (500 : ℤ) ≠ 1000 := by
  have key : ∀ t : ℚ, n.endTime - t ≤ 200 →
      (Game.onKeyUpHold s n t).1 = ScoreSystem.addJudgment s ⟨.PERFECT, 0, 500⟩ := by
    intro t ht
    unfold Game.onKeyUpHold
    rw [release_success n t hty hh ht]
    rfl
  refine ⟨key t1 h1, (key t1 h1).trans (key t2 h2).symm, ?_, by decide⟩
  intro hc
  unfold Game.updateHoldCheck
  rw [if_pos hc]

/-- Witness for C8: the held hold note released at 2850 (or 2900) awards
the fixed PERFECT/500 judgment; the naturally completed copy awards the
fixed PERFECT/1000 judgment. -/
theorem holdReward_flat_witness :
    (Game.onKeyUpHold ScoreSystem.init
        (((Note.ofData ⟨1000, 0, .hold, some 2000⟩).hit).updatePosition 3000) 2850).1
        = ScoreSystem.addJudgment ScoreSystem.init ⟨.PERFECT, 0, 500⟩ ∧
    (Game.onKeyUpHold ScoreSystem.init
        (((Note.ofData ⟨1000, 0, .hold, some 2000⟩).hit).updatePosition 3000) 2850).1
        = (Game.onKeyUpHold ScoreSystem.init
            (((Note.ofData ⟨1000, 0, .hold, some 2000⟩).hit).updatePosition 3000) 2900).1 ∧
    ((((Note.ofData ⟨1000, 0, .hold, some 2000⟩).hit).updatePosition 3000).holdCompleted
          = true →
      (Game.updateHoldCheck ScoreSystem.init
          (((Note.ofData ⟨1000, 0, .hold, some 2000⟩).hit).updatePosition 3000)).1
          = ScoreSystem.addJudgment ScoreSystem.init ⟨.PERFECT, 0, 1000⟩) ∧
    (500 : ℤ) ≠ 1000 :=
  holdReward_flat ScoreSystem.init
    (((Note.ofData ⟨1000, 0, .hold, some 2000⟩).hit).updatePosition 3000) 2850 2900
    (by simp [Note.ofData, Note.hit, Note.updatePosition, NOTE_SPAWN_OFFSET]; norm_num)
    (by simp [Note.ofData, Note.hit, Note.updatePosition, NOTE_SPAWN_OFFSET]; norm_num)
    (by simp [Note.ofData, Note.hit, Note.updatePosition, NOTE_SPAWN_OFFSET]; norm_num)
    (by simp [Note.ofData, Note.hit, Note.updatePosition, NOTE_SPAWN_OFFSET]; norm_num)

/-- Counterexample to C9 as stated: a stopped loop can retain a stale
nonzero frame handle (stop() invoked from inside the onUpdate callback
leaves the executing loop body to re-schedule a frame afterwards), and
calling stop() again in that already-stopped state zeroes the handle —
the state is not left unchanged. -/
theorem gameLoop_stop_cex :
    (⟨0, 0, 7, false⟩ : GameLoop).isRunning = false ∧
    GameLoop.stop ⟨0, 0, 7, false⟩ = ⟨0, 0, 0, false⟩ ∧
    (⟨0, 0, 0, false⟩ : GameLoop) ≠ (⟨0, 0, 7, false⟩ : GameLoop) :=
  ⟨rfl, rfl, fun h => absurd (congrArg GameLoop.animationFrameId h) (by decide)⟩

/-- Claim C9 (amended): Clock.start while already running, Clock.pause
while not running and GameLoop.start while already running preserve the
component's entire state; GameLoop.stop while already stopped always
preserves isRunning, lastTime and accumulator and leaves the frame
handle zeroed — it is a full no-op exactly when no stale scheduled-frame
handle is pending (the state stop itself leaves) — and stop is
idempotent. -/
theorem invalid_transition_noop (c : Clock) (g : GameLoop) (o now : ℚ) :
    (c.isRunning = true → Clock.start c o now = c) ∧
    (c.isRunning = false → Clock.pause c now = c) ∧
    (g.isRunning = true → GameLoop.start g now = g) ∧
    (g.isRunning = false →
      (GameLoop.stop g).isRunning = g.isRunning ∧
      (GameLoop.stop g).lastTime = g.lastTime ∧
      (GameLoop.stop g).accumulator = g.accumulator ∧
      (GameLoop.stop g).animationFrameId = 0 ∧
      (g.animationFrameId = 0 → GameLoop.stop g = g)) ∧
    GameLoop.stop (GameLoop.stop g) = GameLoop.stop g := by
  refine ⟨?_, ?_, ?_, ?_, ?_⟩
  · intro h
    unfold Clock.start
    rw [if_pos h]
  · intro h
    unfold Clock.pause
    rw [if_pos h]
  · intro h
    unfold GameLoop.start
    rw [if_pos h]
  · intro h1
    rcases g with ⟨lt, ac, fid, run⟩
    simp at h1
    subst h1
    by_cases hf : fid = 0
    · subst hf
      exact ⟨rfl, rfl, rfl, rfl, fun _ => rfl⟩
    · refine ⟨?_, ?_, ?_, ?_, fun h2 => absurd h2 hf⟩ <;>
        · unfold GameLoop.stop
          simp [hf]
  · rcases g with ⟨lt, ac, fid, run⟩
    unfold GameLoop.stop
    by_cases hf : fid = 0 <;> simp [hf]

/-- Witness for C9: each transition at a concrete state — the three
unconditional no-ops, the stop-while-stopped no-op with no pending
handle, and stop idempotence on a running loop with a live handle. -/
theorem invalid_transition_noop_witness :
    Clock.start ⟨0, 0, true, 0⟩ 5 7 = ⟨0, 0, true, 0⟩ ∧
    Clock.pause ⟨0, 0, false, 0⟩ 7 = ⟨0, 0, false, 0⟩ ∧
    GameLoop.start ⟨0, 0, 0, true⟩ 7 = ⟨0, 0, 0, true⟩ ∧
    GameLoop.stop ⟨0, 0, 0, false⟩ = ⟨0, 0, 0, false⟩ ∧
    GameLoop.stop (GameLoop.stop ⟨0, 0, 5, true⟩) = GameLoop.stop ⟨0, 0, 5, true⟩ :=
  ⟨(invalid_transition_noop ⟨0, 0, true, 0⟩ ⟨0, 0, 0, true⟩ 5 7).1 rfl,
   (invalid_transition_noop ⟨0, 0, false, 0⟩ ⟨0, 0, 0, false⟩ 5 7).2.1 rfl,
   (invalid_transition_noop ⟨0, 0, true, 0⟩ ⟨0, 0, 0, true⟩ 5 7).2.2.1 rfl,
   ((invalid_transition_noop ⟨0, 0, false, 0⟩ ⟨0, 0, 0, false⟩ 5 7).2.2.2.1 rfl).2.2.2.2 rfl,
   (invalid_transition_noop ⟨0, 0, false, 0⟩ ⟨0, 0, 5, true⟩ 5 7).2.2.2.2⟩

/-- A note in the grabbedLost state is not processed. -/
lemma grabbedLost_not_processed (n : Note) (h : grabbedLost n) :
    n.isProcessed = false := by
  obtain ⟨hty, hhit, hhold, hcomp, hmiss⟩ := h
  unfold Note.isProcessed
  simp [hty, hcomp, hmiss]

/-- One tick or sweep step preserves the grabbedLost state and the
immutable time and lane. -/
lemma applyEvent_grabbedLost (n : Note) (e : NoteEvent) (h : grabbedLost n) :
    grabbedLost (n.applyEvent e) ∧ (n.applyEvent e).time = n.time ∧
      (n.applyEvent e).lane = n.lane := by
  obtain ⟨hty, hhit, hhold, hcomp, hmiss⟩ := h
  cases e with
  | update t =>
    unfold Note.applyEvent Note.updatePosition
    simp [grabbedLost, hty, hhit, hhold, hcomp, hmiss]
  | sweep t =>
    unfold Note.applyEvent JudgmentSystem.missCheck
    simp [grabbedLost, Note.isProcessed, hty, hhit, hhold, hcomp, hmiss]

/-- Any sequence of ticks and sweeps preserves the grabbedLost state and
the immutable time and lane. -/
lemma applyEvents_grabbedLost (evs : List NoteEvent) :
    ∀ n : Note, grabbedLost n →
      grabbedLost (n.applyEvents evs) ∧ (n.applyEvents evs).time = n.time ∧
        (n.applyEvents evs).lane = n.lane := by
  induction evs with
  | nil => exact fun n h => ⟨h, rfl, rfl⟩
  | cons e rest ih =>
    intro n h
    obtain ⟨h1, h2, h3⟩ := applyEvent_grabbedLost n e h
    obtain ⟨g1, g2, g3⟩ := ih (n.applyEvent e) h1
    have hstep : n.applyEvents (e :: rest) = (n.applyEvent e).applyEvents rest := rfl
    refine ⟨?_, ?_, ?_⟩
    · rw [hstep]; exact g1
    · rw [hstep, g2, h2]
    · rw [hstep, g3, h3]

/-- findHittableNote selects the unique candidate of a singleton list
when it is in the right lane, unprocessed and within the miss window. -/
lemma findHittable_singleton (n : Note) (lane : ℕ) (t : ℚ) (hl : n.lane = lane)
    (hp : n.isProcessed = false) (hw : |t - n.time| ≤ MISS_WINDOW) :
    JudgmentSystem.findHittableNote [n] lane t = some n := by
  unfold JudgmentSystem.findHittableNote
  simp [hl, hp, hw]

/-- Claim C10: a fresh hold note grabbed with hit() and released early
(release fails) ends hit, not holding, not completed and not missed, so
it stays unprocessed; under every later sequence of updatePosition and
sweep steps it is never marked missed and stays unprocessed, and
findHittableNote can select it again from its lane whenever it lies
within the 200 ms miss window of the query time. -/
theorem earlyReleasedHold_recoverable (time : ℚ) (lane : ℕ) (dur t0 : ℚ)
    (hEarly : time + dur - t0 > 200) :
    (grabbedThenReleased time lane dur t0).1 = false ∧
    (grabbedThenReleased time lane dur t0).2.isHit = true ∧
    (grabbedThenReleased time lane dur t0).2.isHolding = false ∧
    (grabbedThenReleased time lane dur t0).2.holdCompleted = false ∧
    (grabbedThenReleased time lane dur t0).2.isMissed = false ∧
    (grabbedThenReleased time lane dur t0).2.isProcessed = false ∧
    (∀ evs : List NoteEvent,
      ((grabbedThenReleased time lane dur t0).2.applyEvents evs).isMissed = false ∧
      ((grabbedThenReleased time lane dur t0).2.applyEvents evs).isProcessed = false ∧
      (∀ t : ℚ, |t - time| ≤ 200 →
        JudgmentSystem.findHittableNote
            [(grabbedThenReleased time lane dur t0).2.applyEvents evs] lane t
          = some ((grabbedThenReleased time lane dur t0).2.applyEvents evs))) := by
  have hhit : (Note.ofData ⟨time, lane, .hold, some dur⟩).hit
      = { time := time, lane := lane, type := .hold, duration := dur,
          endTime := time + dur, y := -50, endY := -50, isActive := false,
          isHit := true, isMissed := false, isHolding := true, holdCompleted := false } := by
    simp [Note.ofData, Note.hit]
  have hmain : grabbedThenReleased time lane dur t0
      = (false,
          { time := time, lane := lane, type := .hold, duration := dur,
            endTime := time + dur, y := -50, endY := -50, isActive := false,
            isHit := true, isMissed := false, isHolding := false,
            holdCompleted := false }) := by
    unfold grabbedThenReleased
    rw [hhit, release_early _ t0 rfl rfl (by simpa using hEarly)]
  rw [hmain]
  have hGL : grabbedLost
      { time := time, lane := lane, type := .hold, duration := dur,
        endTime := time + dur, y := -50, endY := -50, isActive := false,
        isHit := true, isMissed := false, isHolding := false,
        holdCompleted := false } := ⟨rfl, rfl, rfl, rfl, rfl⟩
  refine ⟨rfl, rfl, rfl, rfl, rfl, grabbedLost_not_processed _ hGL, ?_⟩
  intro evs
  obtain ⟨g1, g2, g3⟩ := applyEvents_grabbedLost evs _ hGL
  refine ⟨g1.2.2.2.2, grabbedLost_not_processed _ g1, ?_⟩
  intro t ht
  refine findHittable_singleton _ lane t g3 (grabbedLost_not_processed _ g1) ?_
  rw [g2]
  simpa [MISS_WINDOW] using ht

/-- Witness for C10: the hold note at time 1000 with duration 2000,
grabbed and released at 1250 (failure), after a tick at 5000 and a sweep
at 5000 is still unmissed and unprocessed, and is selected again by
findHittableNote at query time 1100. -/
theorem earlyReleasedHold_recoverable_witness :
    ((grabbedThenReleased 1000 0 2000 1250).2.applyEvents
        [.update 5000, .sweep 5000]).isMissed = false ∧
    ((grabbedThenReleased 1000 0 2000 1250).2.applyEvents
        [.update 5000, .sweep 5000]).isProcessed = false ∧
    JudgmentSystem.findHittableNote
        [(grabbedThenReleased 1000 0 2000 1250).2.applyEvents
          [.update 5000, .sweep 5000]] 0 1100
      = some ((grabbedThenReleased 1000 0 2000 1250).2.applyEvents
          [.update 5000, .sweep 5000]) := by
  have h := earlyReleasedHold_recoverable 1000 0 2000 1250 (by norm_num)
  obtain ⟨-, -, -, -, -, -, h7⟩ := h
  obtain ⟨a, b, c⟩ := h7 [.update 5000, .sweep 5000]
  exact ⟨a, b, c 1100 (by norm_num)⟩

end RhythmGame
